import Mathlib

/-!
Verification of the airlines modernity-index feature pipeline.

Shallow embedding of the Python sources:
  * `scripts/py/air1_generate_features.py` (v0 index generation)
  * `scripts/py/build_features.py`         (AIR-5 feature export)
  * `scripts/py/air9_compute_scores.py`    (AIR-9 score computation)
  * `scripts/py/air13_build_country_mapping.py` (country/region mapping rebuild)
  * `scripts/py/air14_region_summary.py`   (country resolution and region summary)

Modelling conventions:
  * pandas numeric cells are `Option ℚ` (`none` models NaN/missing);
    `Option.getD 0` models `.fillna(0)`.
  * pandas `clip(0, 1)` is `clip01`.
  * strings are Lean `String`; only ASCII upper/lower-casing is modelled
    (the repository's own normalisers strip accents before upper-casing,
    and accent stripping is modelled by an explicit character table that
    follows NFKD decomposition plus removal of combining marks for the
    accented characters appearing in the repository's tables).
-/

/-- pandas `Series.clip(0, 1)` applied to a single cell. -/
def clip01 (x : ℚ) : ℚ := min 1 (max 0 x)

/-- Reliability threshold `MIN_FLEET = 5` shared by the pipeline scripts. -/
def MIN_FLEET : ℕ := 5

/- ===================== generic list/string helpers ===================== -/

/-- Code-point comparison of characters (Python string ordering). -/
def charLeB (a b : Char) : Bool := a.toNat ≤ b.toNat

/-- Lexicographic code-point comparison of strings (Python `<=` on `str`). -/
def strLeB (a b : String) : Bool := go a.toList b.toList
where go : List Char → List Char → Bool
  | [], _ => true
  | _ :: _, [] => false
  | a :: as, b :: bs => if a = b then go as bs else charLeB a b

/-- Insertion into a sorted list of strings. -/
def insertStr (x : String) : List String → List String
  | [] => [x]
  | y :: ys => if strLeB x y then x :: y :: ys else y :: insertStr x ys

/-- Insertion sort on strings; models pandas `sort_values` on a string column. -/
def sortStr : List String → List String
  | [] => []
  | x :: xs => insertStr x (sortStr xs)

/-- Deduplication keeping the first occurrence; models pandas
`drop_duplicates` / `unique`. -/
def dedupF {α : Type} [DecidableEq α] : List α → List α
  | [] => []
  | x :: xs => x :: (dedupF xs).filter (fun y => y ≠ x)

/-- Python `str.strip()` on the character list. -/
def trimL (s : List Char) : List Char :=
  ((s.dropWhile Char.isWhitespace).reverse.dropWhile Char.isWhitespace).reverse

/-- Python `str.strip()`. -/
def trimStr (s : String) : String := String.mk (trimL s.toList)

/-- ASCII upper-casing of a string (Python `str.upper()`; the pipeline's own
normalisers remove the non-ASCII characters first). -/
def upperStr (s : String) : String := String.mk (s.toList.map Char.toUpper)

/-- ASCII lower-casing of a string (Python `str.lower()`). -/
def lowerStr (s : String) : String := String.mk (s.toList.map Char.toLower)

/-- Does `p` occur at the head of `l`? -/
def startsWithL (p l : List Char) : Bool :=
  match p, l with
  | [], _ => true
  | _ :: _, [] => false
  | a :: ps, b :: ls => a = b && startsWithL ps ls

/-- Contiguous-substring test on character lists (Python `tok in name`). -/
def containsL (p : List Char) : List Char → Bool
  | [] => p.isEmpty
  | c :: rest => startsWithL p (c :: rest) || containsL p rest

/-- Substring test on strings (Python `in`). -/
def substrB (p s : String) : Bool := containsL p.toList s.toList

/- ===================== regular-expression fragments ===================== -/

/-- Lengths of matches of a literal at the head of `l` (regex literal). -/
def pLit (pat : String) (l : List Char) : List Nat :=
  if startsWithL pat.toList l then [pat.toList.length] else []

/-- Sequencing of two pattern fragments (regex concatenation). -/
def pSeq (p q : List Char → List Nat) (l : List Char) : List Nat :=
  (p l).flatMap (fun n => (q (l.drop n)).map (fun m => n + m))

/-- Alternation of two pattern fragments (regex `|`). -/
def pAlt (p q : List Char → List Nat) (l : List Char) : List Nat := p l ++ q l

/-- Optional pattern fragment (regex `?`). -/
def pOpt (p : List Char → List Nat) (l : List Char) : List Nat := [0] ++ p l

/-- A single ASCII digit (regex `\d`). -/
def pDigit (l : List Char) : List Nat :=
  match l with
  | [] => []
  | c :: _ => if c.isDigit then [1] else []

/-- Word characters for regex `\b` boundaries (`[A-Za-z0-9_]`). -/
def isWordChar (c : Char) : Bool := c.isAlphanum || c = '_'

/-- Is there a word boundary when the previous character is `prev`
and the next character is a word character? -/
def boundaryOk (prev : Option Char) : Bool :=
  match prev with
  | none => true
  | some c => !isWordChar c

/-- Word boundary after a match that ended in a word character:
the remaining suffix is empty or starts with a non-word character. -/
def endBoundary (rest : List Char) : Bool :=
  match rest with
  | [] => true
  | c :: _ => !isWordChar c

/-- Search for `\b(alts)\b` anywhere in the text, where every alternative of
`alts` both starts and ends with a word character.  `prev` is the character
preceding the current position. -/
def searchPat (alts : List Char → List Nat) : List Char → Option Char → Bool
  | [], _ => false
  | c :: rest, prev =>
    (boundaryOk prev &&
      ((alts (c :: rest)).any (fun m => decide (0 < m) && endBoundary ((c :: rest).drop m))))
    || searchPat alts rest (some c)

/-- The alternatives of `PAT["max"]` in build_features.py:
`737[- ]?max | 7m7 | 7m8 | 7m9 | 7mj | max ?(7|8|9|10)`. -/
def maxAlts : List Char → List Nat :=
  pAlt (pSeq (pLit "737") (pSeq (pOpt (pAlt (pLit "-") (pLit " "))) (pLit "max")))
    (pAlt (pLit "7m7")
      (pAlt (pLit "7m8")
        (pAlt (pLit "7m9")
          (pAlt (pLit "7mj")
            (pSeq (pLit "max") (pSeq (pOpt (pLit " "))
              (pAlt (pLit "7") (pAlt (pLit "8") (pAlt (pLit "9") (pLit "10"))))))))))

/-- The alternatives of `PAT["neo"]` in build_features.py:
`(a319|a320|a321)[- ]?\d{2,3}n | (a319|a320|a321)neo`. -/
def neoAlts : List Char → List Nat :=
  let a32x := pAlt (pLit "a319") (pAlt (pLit "a320") (pLit "a321"))
  pAlt
    (pSeq a32x (pSeq (pOpt (pAlt (pLit "-") (pLit " ")))
      (pSeq pDigit (pSeq pDigit (pSeq (pOpt pDigit) (pLit "n"))))))
    (pSeq a32x (pLit "neo"))

/-- `bool(PAT["max"].search(str(model).lower()))` — the `is_max` family tag
computed by `tag_family` in build_features.py. -/
def tag_family_is_max (model : String) : Bool :=
  searchPat maxAlts (lowerStr model).toList none

/-- `bool(PAT["neo"].search(str(model).lower()))` — the `is_neo` family tag
computed by `tag_family` in build_features.py. -/
def tag_family_is_neo (model : String) : Bool :=
  searchPat neoAlts (lowerStr model).toList none

/- ===================== build_features.py (AIR-5) ===================== -/

/-- `norm_name` in build_features.py / air9_compute_scores.py:
`str(s).strip().upper()` (ASCII model). -/
def norm_name (s : String) : String := upperStr (trimStr s)

/-- `ratio` in build_features.py:
`num = to_num(num).fillna(0); den = to_num(den).replace(0, NA);`
`(num / den).fillna(0).clip(0, 1)`. -/
def ratioBF (num den : Option ℚ) : ℚ :=
  let n := num.getD 0
  let r : Option ℚ :=
    match den with
    | none => none
    | some d => if d = 0 then none else some (n / d)
  clip01 (r.getD 0)

/-- A raw fleet observation (`airline_name`, model column). -/
structure RawFleetRow where
  airline : String
  model : String
deriving DecidableEq

/-- `normalize_text_series` in air1_generate_features.py:
strip, NFKD decomposition with ASCII re-encoding (accents dropped to their
base letter, other non-ASCII dropped), upper-case.  Modelled for ASCII and
French-accented input. -/
def stripAccentChar (c : Char) : Char :=
  match c with
  | 'à' | 'â' | 'ä' => 'a'
  | 'é' | 'è' | 'ê' | 'ë' => 'e'
  | 'î' | 'ï' => 'i'
  | 'ô' | 'ö' => 'o'
  | 'ù' | 'û' | 'ü' => 'u'
  | 'ç' => 'c'
  | 'À' | 'Â' | 'Ä' => 'A'
  | 'É' | 'È' | 'Ê' | 'Ë' => 'E'
  | 'Î' | 'Ï' => 'I'
  | 'Ô' | 'Ö' => 'O'
  | 'Ù' | 'Û' | 'Ü' => 'U'
  | 'Ç' => 'C'
  | c => c

/-- Accent stripping over a whole string (NFKD + removal of combining marks,
restricted to the character set used by the repository's tables). -/
def stripAccents (s : String) : String := String.mk (s.toList.map stripAccentChar)

/-- `normalize_text_series` in air1_generate_features.py (see above). -/
def norm_air1 (s : String) : String :=
  upperStr (String.mk ((stripAccents (trimStr s)).toList.filter (fun c => c.toNat < 128)))

/-- air1_generate_features.py: `fleet_size=("airline", "size")` — the number
of raw rows whose normalised airline name equals the normalised key. -/
def fleet_size_air1 (raw : List RawFleetRow) (a : String) : ℕ :=
  ((raw.filter (fun r => norm_air1 r.airline = norm_air1 a)).length)

/-- build_features.py: `n_models` — number of distinct raw model strings per
normalised airline (`groupby("airline_norm")[MODEL_COL].nunique()`). -/
def n_models_of (raw : List RawFleetRow) (a : String) : ℕ :=
  (dedupF ((raw.filter (fun r => norm_name r.airline = norm_name a)).map (fun r => r.model))).length

/-- build_features.py: `models_by_airline` — `(airline_norm, model)` pairs
with duplicates removed (`drop_duplicates`). -/
def models_by_airline (raw : List RawFleetRow) : List (String × String) :=
  dedupF (raw.map (fun r => (norm_name r.airline, r.model)))

/-- build_features.py: `n_neo` for one airline — the number of deduplicated
`(airline_norm, model)` pairs of that airline whose model matches `PAT["neo"]`. -/
def n_neo_of (raw : List RawFleetRow) (a : String) : ℕ :=
  ((models_by_airline raw).filter
    (fun p => p.1 = norm_name a && tag_family_is_neo p.2)).length

/-- build_features.py: `pct_neo = ratio(n_neo, fleet_size)` where `fleet_size`
comes from the aggregated AIR3 table produced by air1_generate_features.py. -/
def pct_neo_of (raw : List RawFleetRow) (a : String) : ℚ :=
  ratioBF (some (n_neo_of raw a)) (some (fleet_size_air1 raw a))

/-- One row of the AIR-5 feature table before the `pct_*` derivation
(numeric columns after `to_num`, so `none` is NaN). -/
structure BFRow where
  fleet_size : Option ℚ
  n_models : Option ℚ
  n_a220 : Option ℚ
  n_787 : Option ℚ
  n_a350 : Option ℚ
  n_a330neo : Option ℚ
  n_neo : Option ℚ
  n_max : Option ℚ

/-- The derived proportion columns of build_features.py. -/
structure BFPcts where
  diversity : ℚ
  pct_a220 : ℚ
  pct_787 : ℚ
  pct_a350 : ℚ
  pct_a330neo : ℚ
  pct_neo : ℚ
  pct_max : ℚ
  pct_newgen_narrow : ℚ
  pct_newgen_wide : ℚ
deriving DecidableEq

/-- build_features.py lines 137 and 159-168: `diversity` and the `pct_*`
derivation (`ratio(n_*, fleet_size)`, then the grouped sums clipped to [0,1];
the `n_*` columns were already `fillna(0)`-ed, modelled by `Option.getD 0`
inside `ratioBF`). -/
def derive_pcts (r : BFRow) : BFPcts :=
  let pa220 := ratioBF r.n_a220 r.fleet_size
  let p787 := ratioBF r.n_787 r.fleet_size
  let pa350 := ratioBF r.n_a350 r.fleet_size
  let pa330 := ratioBF r.n_a330neo r.fleet_size
  let pneo := ratioBF r.n_neo r.fleet_size
  let pmax := ratioBF r.n_max r.fleet_size
  { diversity := ratioBF r.n_models r.fleet_size
    pct_a220 := pa220
    pct_787 := p787
    pct_a350 := pa350
    pct_a330neo := pa330
    pct_neo := pneo
    pct_max := pmax
    pct_newgen_narrow := clip01 (pneo + pmax + pa220)
    pct_newgen_wide := clip01 (p787 + pa350 + pa330) }

/-- build_features.py lines 145-148: `indice_public` —
`0 if isna(fleet_size) or fleet_size < MIN_FLEET else new_gen_share`. -/
def bf_indice_public (fleet_size new_gen_share : Option ℚ) : Option ℚ :=
  match fleet_size with
  | none => some 0
  | some f => if f < (MIN_FLEET : ℚ) then some 0 else new_gen_share

/-- build_features.py lines 149-152: `indice_penalise` —
`new_gen_share * 0.8 if isna(fleet_size) or fleet_size < MIN_FLEET else new_gen_share`. -/
def bf_indice_penalise (fleet_size new_gen_share : Option ℚ) : Option ℚ :=
  match fleet_size with
  | none => new_gen_share.map (fun x => x * 0.8)
  | some f =>
    if f < (MIN_FLEET : ℚ) then new_gen_share.map (fun x => x * 0.8) else new_gen_share

/- ===================== air1_generate_features.py ===================== -/

/-- air1_generate_features.py lines 146-150: `indice_public` —
`np.where(fleet_size >= MIN_FLEET, indice_modernite_v0, np.nan)`. -/
def air1_indice_public (fleet_size : ℕ) (v0 : ℚ) : Option ℚ :=
  if (MIN_FLEET : ℕ) ≤ fleet_size then some v0 else none

/-- air1_generate_features.py line 151: `indice_penalise` —
`indice_modernite_v0 * np.minimum(1, fleet_size / MIN_FLEET)`. -/
def air1_indice_penalise (fleet_size : ℕ) (v0 : ℚ) : ℚ :=
  v0 * min 1 ((fleet_size : ℚ) / (MIN_FLEET : ℚ))

/- ===================== air9_compute_scores.py (AIR-9) ===================== -/

/-- `to_prop` in air9_compute_scores.py:
`s = to_num(s); s.loc[s > 1] = s.loc[s > 1] / 100; s.fillna(0).clip(0, 1)`.
The result column never contains NaN, hence the unconditional `some`. -/
def to_prop (s : Option ℚ) : Option ℚ :=
  let s2 : Option ℚ := s.map (fun x => if 1 < x then x / 100 else x)
  some (clip01 (s2.getD 0))

/-- air9_compute_scores.py lines 90-94: `modernity_index` — inputs are the
`to_prop`-normalised component columns, combined with fixed weights and
clipped to [0,1] (the inner `.fillna(0)` is `Option.getD 0`). -/
def modernity_index (nn nw a220 : Option ℚ) : ℚ :=
  clip01 (0.4 * (to_prop nn).getD 0 + 0.4 * (to_prop nw).getD 0 + 0.2 * (to_prop a220).getD 0)

/-- Python `str.strip(";")` on a character list. -/
def stripSemiL (s : List Char) : List Char :=
  ((s.dropWhile (fun c => c = ';')).reverse.dropWhile (fun c => c = ';')).reverse

/-- Python `str.strip(";")`. -/
def stripSemi (s : String) : String := String.mk (stripSemiL s.toList)

/-- air9_compute_scores.py lines 96-105: the `qa_notes` column for one row.
`fleet` is the `fleet_size` cell after `to_num` (`.fillna(0)` is `getD 0`);
`nn`, `nw`, `a220` are the component cells as read from the input file.
The `missing_component` test `isna().any(axis=1)` runs on the columns AFTER
they were reassigned through `to_prop`, which is why it reads
`(to_prop _).isNone` here.  The final `replace("", NA).fillna("")` is the
identity and is omitted. -/
def air9_qa_notes (fleet nn nw a220 : Option ℚ) : String :=
  let fleetV := fleet.getD 0
  let q0 : String := ""
  let q1 := if fleetV < (MIN_FLEET : ℚ) then stripSemi (q0 ++ ";fleet_too_small") else q0
  let missing := (to_prop nn).isNone || (to_prop nw).isNone || (to_prop a220).isNone
  let q2 := if missing then stripSemi (q1 ++ ";missing_component") else q1
  q2

/-- air9_compute_scores.py line 65: fallback recomputation of `diversity` when
the column is absent: `(n_models / fleet_size).replace([inf], 0).fillna(0).clip(0, 1)`.
Division of a nonzero value by zero gives ±inf in pandas (replaced by 0 or
clipped to 0) and 0/0 gives NaN (filled with 0); all collapse to 0 here. -/
def diversity_fallback (n_models : Option ℚ) (fleet_size : ℚ) : ℚ :=
  let nm := n_models.getD 0
  let r : Option ℚ := if fleet_size = 0 then none else some (nm / fleet_size)
  clip01 (r.getD 0)

/- ===================== air14_region_summary.py ===================== -/

/-- Collapse of runs of spaces to a single space (`re.sub(r"\\s+", " ", s)`;
at the point of use every whitespace character has become a space). -/
def collapseWs : List Char → List Char
  | [] => []
  | [c] => [c]
  | a :: b :: rest =>
    if a = ' ' && b = ' ' then collapseWs (b :: rest) else a :: collapseWs (b :: rest)

/-- `normalize_str` in air14_region_summary.py: NFKD + removal of combining
marks (`stripAccents`), `upper().strip()`, every character outside `A-Z`
replaced by a space, whitespace runs collapsed. -/
def normalize_str (s : String) : String :=
  let s1 := stripAccents s
  let s2 := trimStr (upperStr s1)
  let s3 := s2.toList.map (fun c => if 65 ≤ c.toNat && c.toNat ≤ 90 then c else ' ')
  String.mk (collapseWs s3)

/-- `STOP_WORDS_FR` in air14_region_summary.py. -/
def STOP_WORDS_FR : List String := ["ETAT", "ETATS", "UNIS", "ETATSUNIS", "ARABE", "ARABES", "EMIRAT", "EMIRATS", "REPUBLIQUE", "ROYAUME", "UNION", "FEDERALE", "FEDERAL", "DU", "DE", "DES", "LA", "LE", "LES", "D", "L", "SAINT", "SAINTE"]

/-- Python `str.split()` (split on whitespace runs, no empty fragments). -/
def wordsAux : List Char → List Char → List String
  | [], acc => if acc.isEmpty then [] else [String.mk acc.reverse]
  | c :: rest, acc =>
    if c = ' ' then
      (if acc.isEmpty then wordsAux rest [] else String.mk acc.reverse :: wordsAux rest [])
    else wordsAux rest (c :: acc)

/-- Python `str.split()` on a string whose whitespace is spaces. -/
def wordsStr (s : String) : List String := wordsAux s.toList []

/-- `extract_country_tokens` in air14_region_summary.py: keep tokens of
length ≥ 4 that are not stop words; if none survive, fall back to ALL tokens. -/
def extract_country_tokens (country_clean : String) : List String :=
  let tokens := wordsStr country_clean
  let good := tokens.filter (fun t => 4 ≤ t.length && !(STOP_WORDS_FR.contains t))
  if good.isEmpty then tokens else good

/-- One row of `source/country_region_mapping.csv` as consumed by
air14_region_summary.py (`country_code` is unused there); `region` is
`Option` because the hand-edited file may leave it blank (NaN). -/
structure M14Row where
  country : String
  region : Option String
deriving DecidableEq

/-- `EXTRA_REGION` in air14_region_summary.py lines 151-156, as the rows
appended to the loaded mapping (lines 158-162). -/
def EXTRA_REGION_rows : List M14Row :=
  [⟨"Philippines", some "Asia"⟩,
   ⟨"Maroc", some "Africa"⟩,
   ⟨"Mongolie", some "Asia"⟩,
   ⟨"États-Unis", some "North America"⟩]

/-- The mapping table after `pd.concat([mapping, extra_rows])`. -/
def mappingFull (m : List M14Row) : List M14Row := m ++ EXTRA_REGION_rows

/-- `build_country_token_table` in air14_region_summary.py: one
`(country, token)` row per token of each mapping row (extras included),
duplicates dropped. -/
def build_country_token_table (m : List M14Row) : List (String × String) :=
  dedupF ((mappingFull m).flatMap
    (fun r => (extract_country_tokens (normalize_str r.country)).map (fun t => (r.country, t))))

/-- `MANUAL_COUNTRY_RAW` in air14_region_summary.py. -/
def MANUAL_COUNTRY_RAW : List (String × String) := [
  ("SALAMAIR", "Oman"),
  ("CEBU PACIFIC", "Philippines"),
  ("ROYAL AIR MAROC", "Maroc"),
  ("PHILIPPINE AIRLINES", "Philippines"),
  ("AERO MONGOLIA", "Mongolie"),
  ("AIRSWIFT", "Philippines"),
  ("AUSTRIA - AIR FORCE", "Autriche"),
  ("BRAZIL - ARMY", "Brésil"),
  ("CZECHIA - AIR FORCE", "République tchèque"),
  ("EADS CASA", "Espagne"),
  ("MAVI GAK AIRLINES", "Turquie"),
  ("MEXICO - NAVY", "Mexique"),
  ("RUSSIA - NATIONAL GUARD", "Russie"),
  ("SINGAPORE - AIR FORCE", "Singapour"),
  ("SPAIN - GUARDIA CIVIL", "Espagne"),
  ("TRANSPORTES AAREOS PEGASO", "Mexique"),
  ("AERO DILI", "Timor oriental"),
  ("BERMUDAIR", "Bermudes"),
  ("BH AIR", "Bulgarie"),
  ("ESTONIA - AIR FORCE", "Estonie"),
  ("FLYERBIL AIRLINE", "Suède"),
  ("GREECE - ARMY", "Grèce"),
  ("HYDRO-QUABEC", "Canada"),
  ("LATVIA - AIR FORCE", "Lettonie"),
  ("LIFT", "Afrique du Sud"),
  ("MOAAMBIQUE EXPRESSO", "Mozambique"),
  ("MONGOLIAN AIRWAYS", "Mongolie"),
  ("PERU - NAVY", "Pérou"),
  ("POLAND - NAVY", "Pologne"),
  ("PRIVATMAIR", "Suisse"),
  ("ROYAL STAR AVIATION", "États-Unis"),
  ("ROYALAIR PHILIPPINES", "Philippines"),
  ("SEAIR INTERNATIONAL", "Philippines"),
  ("SERVICIOS AAREOS ILSA", "Mexique"),
  ("SKYHIGH DOMINICANA", "République dominicaine"),
  ("SKYJET AIRLINES", "Philippines"),
  ("SUNLIGHT AIR", "Philippines"),
  ("SWITZERLAND - AIR FORCE", "Suisse"),
  ("TAR MEXICO", "Mexique"),
  ("ZORTE AIR", "Mongolie")]

/-- `MANUAL_COUNTRY`: the manual table with `normalize_str`-ed keys. -/
def MANUAL_COUNTRY : List (String × String) :=
  MANUAL_COUNTRY_RAW.map (fun p => (normalize_str p.1, p.2))

/-- `get_manual_country` in air14_region_summary.py. -/
def get_manual_country (airline_name : String) : Option String :=
  (MANUAL_COUNTRY.find? (fun p => p.1 = normalize_str airline_name)).map (fun p => p.2)

/-- `guess_country_from_name` in air14_region_summary.py: first token-table
row whose (nonempty) token is a substring of the normalised airline name. -/
def guess_country_from_name (airline_name : String) (token_table : List (String × String)) :
    Option String :=
  let name_clean := normalize_str airline_name
  if name_clean = "" then none
  else (token_table.find? (fun p => p.2 ≠ "" && substrB p.2 name_clean)).map (fun p => p.1)

/-- One row of the raw dataset as consumed by air14_region_summary.py. -/
structure RawCountryRow where
  airline_name : String
  country : String
deriving DecidableEq

/-- Join key of step 3: `.astype(str).str.upper().str.strip()`. -/
def upperStrip (s : String) : String := trimStr (upperStr s)

/-- First pair attaining the maximal count (`Series.idxmax`). -/
def bestPair : List (String × ℕ) → Option (String × ℕ)
  | [] => none
  | p :: rest =>
    match bestPair rest with
    | none => some p
    | some q => if p.2 < q.2 then some q else some p

/-- Most frequent country for one raw `airline_name`
(`groupby(["airline_name", "country"]).size()` followed by per-airline
`idxmax`; groupby sorts the keys, so ties break towards the
lexicographically first country). -/
def modeCountry (raw : List RawCountryRow) (name : String) : Option String :=
  let cs := (raw.filter (fun r => r.airline_name = name)).map (fun r => r.country)
  let uniq := sortStr (dedupF cs)
  (bestPair (uniq.map (fun c => (c, cs.count c)))).map (fun p => p.1)

/-- `airline_country` of air14_region_summary.py step 3: one
`(airline_key, country)` row per distinct raw `airline_name`. -/
def airline_country (raw : List RawCountryRow) : List (String × String) :=
  (sortStr (dedupF (raw.map (fun r => r.airline_name)))).filterMap
    (fun n => (modeCountry raw n).map (fun c => (upperStrip n, c)))

/-- Stage 1 of country resolution: the left join of a score row onto
`airline_country` over the upper/strip key (modelled as a lookup;
`airline_country` has one row per raw airline name by construction). -/
def stage1 (raw : List RawCountryRow) (airline : String) : Option String :=
  ((airline_country raw).find? (fun p => p.1 = upperStrip airline)).map (fun p => p.2)

/-- Stages 1-3 of air14_region_summary.py (steps 3, 4, 5): the direct join,
then `fillna` with the manual table on still-missing rows, then `fillna`
with the name heuristic on still-missing rows. -/
def resolveCountry (raw : List RawCountryRow) (m : List M14Row) (airline : String) :
    Option String :=
  match stage1 raw airline with
  | some c => some c
  | none =>
    match get_manual_country airline with
    | some c => some c
    | none => guess_country_from_name airline (build_country_token_table m)

/-- Step 6 of air14_region_summary.py: the left merge of the resolved country
onto the mapping (extras included) over `country_norm = normalize_str`. -/
def regionLookup (m : List M14Row) (c : String) : Option String :=
  match (mappingFull m).find? (fun r => normalize_str r.country = normalize_str c) with
  | none => none
  | some r => r.region

/-- Region of one score row: country resolution then region merge; a row
whose country is NaN matches no mapping row. -/
def regionOf (raw : List RawCountryRow) (m : List M14Row) (airline : String) :
    Option String :=
  (resolveCountry raw m airline).bind (fun c => regionLookup m c)

/-- One row of `release/airline_scores.csv` as consumed by
air14_region_summary.py. -/
structure ScoreRow where
  airline : String
  modernity_index : Option ℚ
deriving DecidableEq

/-- The side output `release/air14_missing_region.csv`: `(airline, country)`
of the rows with no region, duplicates dropped. -/
def missingAirlines (raw : List RawCountryRow) (m : List M14Row) (scores : List ScoreRow) :
    List (String × Option String) :=
  dedupF ((scores.filter (fun s => (regionOf raw m s.airline).isNone)).map
    (fun s => (s.airline, resolveCountry raw m s.airline)))

/-- Step 7 of air14_region_summary.py: the rows surviving
`dropna(subset=["region", "modernity_index"])`, which feed the region
aggregation of step 8. -/
def aggRows (raw : List RawCountryRow) (m : List M14Row) (scores : List ScoreRow) :
    List ScoreRow :=
  scores.filter (fun s => (regionOf raw m s.airline).isSome && s.modernity_index.isSome)

/- ===================== air13_build_country_mapping.py ===================== -/

/-- One row of `source/country_region_mapping.csv` as maintained by
air13_build_country_mapping.py (string cells, `fillna("")`). -/
structure MapEntry where
  country : String
  country_code : String
  region : String
deriving DecidableEq

/-- `MANUAL_ALPHA2` in air13_build_country_mapping.py. -/
def MANUAL_ALPHA2 : List (String × String) := [
  ("Afghanistan", "AF"),
  ("Afrique du Sud", "ZA"),
  ("Albanie", "AL"),
  ("Algérie", "DZ"),
  ("Allemagne", "DE"),
  ("Angola", "AO"),
  ("Anguilla", "AI"),
  ("Antigua-et-Barbuda", "AG"),
  ("Arabie saoudite", "SA"),
  ("Argentine", "AR"),
  ("Arménie", "AM"),
  ("Aruba", "AW"),
  ("Autriche", "AT"),
  ("Azerbaïdjan", "AZ"),
  ("Bahamas", "BS"),
  ("Bahreïn", "BH"),
  ("Bangladesh", "BD"),
  ("Belgique", "BE"),
  ("Belize", "BZ"),
  ("Bermudes", "BM"),
  ("Bhoutan", "BT"),
  ("Birmanie", "MM"),
  ("Biélorussie", "BY"),
  ("Bolivie", "BO"),
  ("Bosnie-Herzégovine", "BA"),
  ("Botswana", "BW"),
  ("Brunei", "BN"),
  ("Brésil", "BR"),
  ("Bulgarie", "BG"),
  ("Burkina Faso", "BF"),
  ("Bénin", "BJ"),
  ("Cambodge", "KH"),
  ("Cameroun", "CM"),
  ("Canada", "CA"),
  ("Cap-Vert", "CV"),
  ("Chili", "CL"),
  ("Chypre", "CY"),
  ("Colombie", "CO"),
  ("Corée du Nord", "KP"),
  ("Corée du Sud", "KR"),
  ("Costa Rica", "CR"),
  ("Croatie", "HR"),
  ("Côte d\u0027Ivoire", "CI"),
  ("Espagne", "ES"),
  ("Estonie", "EE"),
  ("Eswatini", "SZ"),
  ("Fidji", "FJ"),
  ("Finlande", "FI"),
  ("France", "FR"),
  ("Gabon", "GA"),
  ("Gambie", "GM"),
  ("Ghana", "GH"),
  ("Grèce", "GR"),
  ("Guatemala", "GT"),
  ("Guernesey", "GG"),
  ("Guinée équatoriale", "GQ"),
  ("Guyana", "GY"),
  ("Géorgie", "GE"),
  ("Honduras", "HN"),
  ("Hong Kong", "HK"),
  ("Hongrie", "HU"),
  ("Inde", "IN"),
  ("Irak", "IQ"),
  ("Iran", "IR"),
  ("Irlande", "IE"),
  ("Islande", "IS"),
  ("Italie", "IT"),
  ("Japon", "JP"),
  ("Jordanie", "JO"),
  ("Kazakhstan", "KZ"),
  ("Kenya", "KE"),
  ("Kirghizistan", "KG"),
  ("Kiribati", "KI"),
  ("Koweït", "KW"),
  ("Laos", "LA"),
  ("Lettonie", "LV"),
  ("Liban", "LB"),
  ("Libye", "LY"),
  ("Lituanie", "LT"),
  ("Luxembourg", "LU"),
  ("Macao", "MO"),
  ("Madagascar", "MG"),
  ("Malaisie", "MY"),
  ("Malawi", "MW"),
  ("Maldives", "MV"),
  ("Mali", "ML"),
  ("Malte", "MT"),
  ("Maurice", "MU"),
  ("Mauritanie", "MR"),
  ("Mexique", "MX"),
  ("Moldavie", "MD"),
  ("Monaco", "MC"),
  ("Monténégro", "ME"),
  ("Mozambique", "MZ"),
  ("Namibie", "NA"),
  ("Nicaragua", "NI"),
  ("Nigeria", "NG"),
  ("Nouvelle-Zélande", "NZ"),
  ("Népal", "NP"),
  ("Oman", "OM"),
  ("Ouganda", "UG"),
  ("Ouzbékistan", "UZ"),
  ("Pakistan", "PK"),
  ("Panama", "PA"),
  ("Papouasie-Nouvelle-Guinée", "PG"),
  ("Paraguay", "PY"),
  ("Pays-Bas", "NL"),
  ("Pologne", "PL"),
  ("Polynésie française", "PF"),
  ("Porto Rico", "PR"),
  ("Portugal", "PT"),
  ("Pérou", "PE"),
  ("Qatar", "QA"),
  ("Roumanie", "RO"),
  ("Russie", "RU"),
  ("Rwanda", "RW"),
  ("République centrafricaine", "CF"),
  ("République dominicaine", "DO"),
  ("République du Congo", "CG"),
  ("République démocratique du Congo", "CD"),
  ("République tchèque", "CZ"),
  ("Saint-Marin", "SM"),
  ("Saint-Vincent-et-les-Grenadines", "VC"),
  ("Samoa", "WS"),
  ("Serbie", "RS"),
  ("Seychelles", "SC"),
  ("Singapour", "SG"),
  ("Slovaquie", "SK"),
  ("Slovénie", "SI"),
  ("Somalie", "SO"),
  ("Soudan", "SD"),
  ("Sri Lanka", "LK"),
  ("Suisse", "CH"),
  ("Suriname", "SR"),
  ("Suède", "SE"),
  ("Svalbard et ile Jan Mayen", "SJ"),
  ("Syrie", "SY"),
  ("Sénégal", "SN"),
  ("Tadjikistan", "TJ"),
  ("Tanzanie", "TZ"),
  ("Taïwan", "TW"),
  ("Territoire britannique de l\u0027océan Indien", "IO"),
  ("Thaïlande", "TH"),
  ("Timor oriental", "TL"),
  ("Togo", "TG"),
  ("Tonga", "TO"),
  ("Trinité-et-Tobago", "TT"),
  ("Tunisie", "TN"),
  ("Turkménistan", "TM"),
  ("Turquie", "TR"),
  ("Ukraine", "UA"),
  ("Uruguay", "UY"),
  ("Vanuatu", "VU"),
  ("Venezuela", "VE"),
  ("Vietnam", "VN"),
  ("Yémen", "YE"),
  ("Zambie", "ZM"),
  ("Zimbabwe", "ZW"),
  ("Égypte", "EG"),
  ("Émirats arabes unis", "AE"),
  ("Équateur", "EC"),
  ("Éthiopie", "ET"),
  ("Île de Man", "IM"),
  ("Îles Caïmans", "KY"),
  ("Îles Cocos", "CC"),
  ("Îles Féroé", "FO"),
  ("Îles Salomon", "SB"),
  ("Îles Turques-et-Caïques", "TC")]

/-- `MANUAL_REGION` in air13_build_country_mapping.py. -/
def MANUAL_REGION : List (String × String) := [
  ("Afghanistan", "Asia"),
  ("Afrique du Sud", "Africa"),
  ("Albanie", "Europe"),
  ("Algérie", "Africa"),
  ("Allemagne", "Europe"),
  ("Angola", "Africa"),
  ("Anguilla", "Caribbean"),
  ("Antigua-et-Barbuda", "Caribbean"),
  ("Arabie saoudite", "Middle East"),
  ("Argentine", "South America"),
  ("Arménie", "Asia"),
  ("Aruba", "Caribbean"),
  ("Autriche", "Europe"),
  ("Azerbaïdjan", "Asia"),
  ("Bahamas", "Caribbean"),
  ("Bahreïn", "Middle East"),
  ("Bangladesh", "Asia"),
  ("Belgique", "Europe"),
  ("Belize", "North America"),
  ("Bermudes", "North America"),
  ("Bhoutan", "Asia"),
  ("Birmanie", "Asia"),
  ("Biélorussie", "Europe"),
  ("Bolivie", "South America"),
  ("Bosnie-Herzégovine", "Europe"),
  ("Botswana", "Africa"),
  ("Brunei", "Asia"),
  ("Brésil", "South America"),
  ("Bulgarie", "Europe"),
  ("Burkina Faso", "Africa"),
  ("Bénin", "Africa"),
  ("Cambodge", "Asia"),
  ("Cameroun", "Africa"),
  ("Canada", "North America"),
  ("Cap-Vert", "Africa"),
  ("Chili", "South America"),
  ("Chypre", "Europe"),
  ("Colombie", "South America"),
  ("Corée du Nord", "Asia"),
  ("Corée du Sud", "Asia"),
  ("Costa Rica", "North America"),
  ("Croatie", "Europe"),
  ("Côte d\u0027Ivoire", "Africa"),
  ("Espagne", "Europe"),
  ("Estonie", "Europe"),
  ("Eswatini", "Africa"),
  ("Fidji", "Oceania"),
  ("Finlande", "Europe"),
  ("France", "Europe"),
  ("Gabon", "Africa"),
  ("Gambie", "Africa"),
  ("Ghana", "Africa"),
  ("Grèce", "Europe"),
  ("Guatemala", "North America"),
  ("Guernesey", "Europe"),
  ("Guinée équatoriale", "Africa"),
  ("Guyana", "South America"),
  ("Géorgie", "Asia"),
  ("Honduras", "North America"),
  ("Hong Kong", "Asia"),
  ("Hongrie", "Europe"),
  ("Inde", "Asia"),
  ("Irak", "Middle East"),
  ("Iran", "Middle East"),
  ("Irlande", "Europe"),
  ("Islande", "Europe"),
  ("Italie", "Europe"),
  ("Japon", "Asia"),
  ("Jordanie", "Middle East"),
  ("Kazakhstan", "Asia"),
  ("Kenya", "Africa"),
  ("Kirghizistan", "Asia"),
  ("Kiribati", "Oceania"),
  ("Koweït", "Middle East"),
  ("Laos", "Asia"),
  ("Lettonie", "Europe"),
  ("Liban", "Middle East"),
  ("Libye", "Africa"),
  ("Lituanie", "Europe"),
  ("Luxembourg", "Europe"),
  ("Macao", "Asia"),
  ("Madagascar", "Africa"),
  ("Malaisie", "Asia"),
  ("Malawi", "Africa"),
  ("Maldives", "Asia"),
  ("Mali", "Africa"),
  ("Malte", "Europe"),
  ("Maurice", "Africa"),
  ("Mauritanie", "Africa"),
  ("Mexique", "North America"),
  ("Moldavie", "Europe"),
  ("Monaco", "Europe"),
  ("Monténégro", "Europe"),
  ("Mozambique", "Africa"),
  ("Namibie", "Africa"),
  ("Nicaragua", "North America"),
  ("Nigeria", "Africa"),
  ("Nouvelle-Zélande", "Oceania"),
  ("Népal", "Asia"),
  ("Oman", "Middle East"),
  ("Ouganda", "Africa"),
  ("Ouzbékistan", "Asia"),
  ("Pakistan", "Asia"),
  ("Panama", "North America"),
  ("Papouasie-Nouvelle-Guinée", "Oceania"),
  ("Paraguay", "South America"),
  ("Pays-Bas", "Europe"),
  ("Pologne", "Europe"),
  ("Polynésie française", "Oceania"),
  ("Porto Rico", "Caribbean"),
  ("Portugal", "Europe"),
  ("Pérou", "South America"),
  ("Qatar", "Middle East"),
  ("Roumanie", "Europe"),
  ("Russie", "Europe"),
  ("Rwanda", "Africa"),
  ("République centrafricaine", "Africa"),
  ("République dominicaine", "Caribbean"),
  ("République du Congo", "Africa"),
  ("République démocratique du Congo", "Africa"),
  ("République tchèque", "Europe"),
  ("Saint-Marin", "Europe"),
  ("Saint-Vincent-et-les-Grenadines", "Caribbean"),
  ("Samoa", "Oceania"),
  ("Serbie", "Europe"),
  ("Seychelles", "Africa"),
  ("Singapour", "Asia"),
  ("Slovaquie", "Europe"),
  ("Slovénie", "Europe"),
  ("Somalie", "Africa"),
  ("Soudan", "Africa"),
  ("Sri Lanka", "Asia"),
  ("Suisse", "Europe"),
  ("Suriname", "South America"),
  ("Suède", "Europe"),
  ("Svalbard et ile Jan Mayen", "Europe"),
  ("Syrie", "Middle East"),
  ("Sénégal", "Africa"),
  ("Tadjikistan", "Asia"),
  ("Tanzanie", "Africa"),
  ("Taïwan", "Asia"),
  ("Territoire britannique de l\u0027océan Indien", "Asia"),
  ("Thaïlande", "Asia"),
  ("Timor oriental", "Asia"),
  ("Togo", "Africa"),
  ("Tonga", "Oceania"),
  ("Trinité-et-Tobago", "Caribbean"),
  ("Tunisie", "Africa"),
  ("Turkménistan", "Asia"),
  ("Turquie", "Middle East"),
  ("Ukraine", "Europe"),
  ("Uruguay", "South America"),
  ("Vanuatu", "Oceania"),
  ("Venezuela", "South America"),
  ("Vietnam", "Asia"),
  ("Yémen", "Middle East"),
  ("Zambie", "Africa"),
  ("Zimbabwe", "Africa"),
  ("Égypte", "Africa"),
  ("Émirats arabes unis", "Middle East"),
  ("Équateur", "South America"),
  ("Éthiopie", "Africa"),
  ("Île de Man", "Europe"),
  ("Îles Caïmans", "Caribbean"),
  ("Îles Cocos", "Asia"),
  ("Îles Féroé", "Europe"),
  ("Îles Salomon", "Oceania"),
  ("Îles Turques-et-Caïques", "Caribbean")]

/-- First-match lookup in an association list (Python `dict` access;
the source dictionaries have distinct keys). -/
def lookupD (l : List (String × String)) (k : String) : Option String :=
  (l.find? (fun p => p.1 = k)).map (fun p => p.2)

/-- `guess_iso_code` in air13_build_country_mapping.py, on the path where the
optional libraries `pycountry` and `googletrans` are not installed (the
script guards their imports): stage 1 is the `MANUAL_ALPHA2` dictionary and
the remaining stages return `""`. -/
def guess_iso_code (country : String) : String :=
  let c := trimStr country
  if c = "" then "" else (lookupD MANUAL_ALPHA2 c).getD ""

/-- Step 1 of `main` in air13_build_country_mapping.py: the distinct country
list of the raw data — `dropna`, `astype(str).str.strip()`, `sort_values`,
`unique`. -/
def countriesList (rawCountry : List (Option String)) : List String :=
  dedupF (sortStr ((rawCountry.filterMap id).map trimStr))

/-- Steps 3 and 3bis of `main` in air13_build_country_mapping.py for one
observed country `c`: carry over the old row's `country_code`/`region` when
the old mapping has `c`, then auto-fill a blank region from `MANUAL_REGION`
and a blank code from `guess_iso_code`. -/
def rebuildEntry (old : Option (List MapEntry)) (c : String) : MapEntry :=
  let base : MapEntry :=
    match old with
    | some mold =>
      match mold.find? (fun e => trimStr e.country = c) with
      | some e => ⟨c, e.country_code, e.region⟩
      | none => ⟨c, "", ""⟩
    | none => ⟨c, "", ""⟩
  let region1 :=
    if trimStr base.region = "" then
      match lookupD MANUAL_REGION c with
      | some r => r
      | none => base.region
    else base.region
  let code1 :=
    if trimStr base.country_code = "" then
      (if guess_iso_code c = "" then base.country_code else guess_iso_code c)
    else base.country_code
  ⟨c, code1, region1⟩

/-- `main` of air13_build_country_mapping.py: the rewritten mapping table —
one row per country observed in the current raw data. -/
def rebuildMapping (rawCountry : List (Option String)) (old : Option (List MapEntry)) :
    List MapEntry :=
  (countriesList rawCountry).map (rebuildEntry old)

/- ===================== example data used by the claim theorems ===================== -/

/-- Raw rows of the end-to-end aggregation example. -/
def exRawAF : List RawFleetRow :=
  [⟨"AIR FRANCE", "A320neo"⟩, ⟨"AIR FRANCE", "A320neo"⟩, ⟨"AIR FRANCE", "A321"⟩]

/-- Raw dataset of the country-resolution example: one airline whose raw rows
carry the country France. -/
def exRaw14 : List RawCountryRow := [⟨"Royal Air Maroc", "France"⟩]

/-- Loaded `country_region_mapping.csv` of the country-resolution example. -/
def exMap14 : List M14Row :=
  [⟨"France", some "Europe"⟩, ⟨"Mexique", some "North America"⟩,
   ⟨"Mexico", some "South America"⟩]

/-- Score table of the country-resolution example. -/
def exScores14 : List ScoreRow :=
  [⟨"ROYAL AIR MAROC", some 0.7⟩, ⟨"TAR MEXICO", some 0.5⟩,
   ⟨"FRANCE JET", some 0.4⟩, ⟨"ZZZ JET", some 0.2⟩]

/-- Old mapping table of the additive-merge example. -/
def exOldMap : List MapEntry := [⟨"Atlantis", "XX", "Europe"⟩]

/- ===================== helper lemmas ===================== -/

theorem clip01_nonneg (x : ℚ) : 0 ≤ clip01 x := by
  simp [clip01, le_min_iff]

theorem clip01_le_one (x : ℚ) : clip01 x ≤ 1 := by
  simp [clip01]

theorem clip01_eq_self {x : ℚ} (h0 : 0 ≤ x) (h1 : x ≤ 1) : clip01 x = x := by
  simp [clip01, max_eq_right h0, min_eq_right h1]

theorem to_prop_isSome (s : Option ℚ) : (to_prop s).isSome = true := rfl

theorem to_prop_in_range (s : Option ℚ) :
    ∃ y, to_prop s = some y ∧ 0 ≤ y ∧ y ≤ 1 := by
  refine ⟨_, rfl, clip01_nonneg _, clip01_le_one _⟩

theorem to_prop_of_mem_unit {x : ℚ} (h0 : 0 ≤ x) (h1 : x ≤ 1) :
    to_prop (some x) = some x := by
  have hx : ¬ (1 < x) := not_lt.mpr h1
  simp [to_prop, hx, clip01_eq_self h0 h1]

theorem mem_dedupF {α : Type} [DecidableEq α] (a : α) (l : List α) :
    a ∈ dedupF l ↔ a ∈ l := by
  induction l with
  | nil => simp [dedupF]
  | cons x xs ih =>
    by_cases hax : a = x
    · simp [dedupF, hax]
    · simp [dedupF, List.mem_filter, hax, ih]

/- ===================== claim theorems ===================== -/

/-- C2: for component inputs `pct_newgen_narrow`, `pct_newgen_wide`,
`pct_a220` each in [0,1], the computed `modernity_index` equals
`clamp01(0.4*nn + 0.4*nw + 0.2*a220)` and lies in [0,1]. -/
theorem modernity_index_weighted_clamp (x y z : ℚ)
    (hx0 : 0 ≤ x) (hx1 : x ≤ 1) (hy0 : 0 ≤ y) (hy1 : y ≤ 1)
    (hz0 : 0 ≤ z) (hz1 : z ≤ 1) :
    modernity_index (some x) (some y) (some z) = clip01 (0.4 * x + 0.4 * y + 0.2 * z) ∧
    0 ≤ modernity_index (some x) (some y) (some z) ∧
    modernity_index (some x) (some y) (some z) ≤ 1 := by
  refine ⟨?_, clip01_nonneg _, clip01_le_one _⟩
  rw [modernity_index, to_prop_of_mem_unit hx0 hx1, to_prop_of_mem_unit hy0 hy1,
    to_prop_of_mem_unit hz0 hz1]
  rfl

/-- Witness for C2 at `nn = nw = a220 = 1/2`. -/
theorem modernity_index_weighted_clamp_witness :
    modernity_index (some (1/2)) (some (1/2)) (some (1/2)) =
      clip01 (0.4 * (1/2) + 0.4 * (1/2) + 0.2 * (1/2)) ∧
    0 ≤ modernity_index (some (1/2)) (some (1/2)) (some (1/2)) ∧
    modernity_index (some (1/2)) (some (1/2)) (some (1/2)) ≤ 1 :=
  modernity_index_weighted_clamp (1/2) (1/2) (1/2)
    (by norm_num) (by norm_num) (by norm_num) (by norm_num) (by norm_num) (by norm_num)

/-- C8 counterexample: the claim says any input greater than 1 is clamped to 1,
but `to_prop` first divides values above 1 by 100: input 2 yields 1/50, not 1. -/
theorem to_prop_gt_one_not_clamped :
    to_prop (some 2) = some (1/50) ∧ (1/50 : ℚ) ≠ 1 := by
  constructor
  · norm_num [to_prop, clip01]
  · norm_num

/-- C8 amended: a missing proportion input becomes 0; a value above 1 is
interpreted as a percentage (divided by 100) and then clamped to [0,1];
every `to_prop` output is a rational in [0,1], so no NaN or infinity reaches
`modernity_index`, which itself always lies in [0,1]. -/
theorem to_prop_normalisation (x : ℚ) (s1 s2 s3 : Option ℚ) :
    to_prop none = some 0 ∧
    to_prop (some x) = some (clip01 (if 1 < x then x / 100 else x)) ∧
    (∃ y, to_prop s1 = some y ∧ 0 ≤ y ∧ y ≤ 1) ∧
    0 ≤ modernity_index s1 s2 s3 ∧ modernity_index s1 s2 s3 ≤ 1 := by
  refine ⟨?_, rfl, to_prop_in_range s1, clip01_nonneg _, clip01_le_one _⟩
  norm_num [to_prop, clip01]

/-- C9: with `fleet_size = 0` every derived `pct_*` value and `diversity`
is 0 (never NaN or infinite), in both the feature exporter's `ratio`-based
derivation and the scorer's `diversity` fallback recomputation. -/
theorem zero_fleet_all_zero (q nm na n7 n3 n33 nn nx : Option ℚ) :
    derive_pcts ⟨some 0, nm, na, n7, n3, n33, nn, nx⟩ =
      ⟨0, 0, 0, 0, 0, 0, 0, 0, 0⟩ ∧
    ratioBF q (some 0) = 0 ∧
    diversity_fallback nm 0 = 0 := by
  have hr : ∀ p : Option ℚ, ratioBF p (some 0) = 0 := by
    intro p
    simp [ratioBF, clip01]
  refine ⟨?_, hr q, ?_⟩
  · simp [derive_pcts, hr, clip01]
  · simp [diversity_fallback, clip01]

/-- C1 counterexample: in build_features.py, an airline with `fleet_size = 2`
and raw index 1/2 gets a PRESENT suppressed value 0 (not absent) and a
penalized value (1/2)*0.8 = 2/5, which differs from
`raw_index * min(1, fleet_size/5) = 1/5`. -/
theorem bf_small_fleet_counterexample :
    bf_indice_public (some 2) (some (1/2)) = some 0 ∧
    bf_indice_penalise (some 2) (some (1/2)) = some (2/5) ∧
    (2/5 : ℚ) ≠ (1/2 : ℚ) * min 1 ((2 : ℚ) / 5) := by
  refine ⟨?_, ?_, ?_⟩
  · norm_num [bf_indice_public, MIN_FLEET]
  · norm_num [bf_indice_penalise, MIN_FLEET]
  · rw [min_eq_right (by norm_num : ((2:ℚ)/5) ≤ 1)]
    norm_num

/-- C1 amended: the v0 generator (air1_generate_features.py) withholds
`indice_public` (NaN) below `MIN_FLEET = 5` and penalizes by
`min(1, fleet_size/5)`; the feature exporter (build_features.py) instead
writes 0 for `indice_public` below threshold and penalizes by the constant
factor 0.8; at or above the threshold both scripts return the raw index for
both variants. -/
theorem small_fleet_variants (fleet : ℕ) (v0 f ngs : ℚ) :
    air1_indice_public fleet v0 = (if MIN_FLEET ≤ fleet then some v0 else none) ∧
    air1_indice_penalise fleet v0 =
      (if MIN_FLEET ≤ fleet then v0 else v0 * ((fleet : ℚ) / 5)) ∧
    bf_indice_public (some f) (some ngs) =
      (if f < (MIN_FLEET : ℚ) then some 0 else some ngs) ∧
    bf_indice_penalise (some f) (some ngs) =
      (if f < (MIN_FLEET : ℚ) then some (ngs * 0.8) else some ngs) := by
  refine ⟨rfl, ?_, rfl, ?_⟩
  · rw [air1_indice_penalise]
    simp only [MIN_FLEET, Nat.cast_ofNat]
    by_cases h : 5 ≤ fleet
    · have h5 : (1 : ℚ) ≤ (fleet : ℚ) / 5 := by
        rw [le_div_iff₀ (by norm_num : (0:ℚ) < 5)]
        simpa using (by exact_mod_cast h : (5 : ℚ) ≤ (fleet : ℚ))
      simp [h, min_eq_left h5]
    · have h5 : (fleet : ℚ) / 5 ≤ 1 := by
        rw [div_le_iff₀ (by norm_num : (0:ℚ) < 5)]
        have : (fleet : ℚ) ≤ 5 := by
          exact_mod_cast Nat.le_of_lt (Nat.lt_of_not_le h)
        simpa using this
      simp [h, min_eq_right h5]
  · rw [bf_indice_penalise]
    by_cases h : f < (MIN_FLEET : ℚ) <;> simp [h]

set_option maxRecDepth 8000

theorem to_prop_isNone_false (s : Option ℚ) : (to_prop s).isNone = false := rfl

/-- C3 (code bug): at the failing input `fleet_size = 2` with a missing
`pct_newgen_narrow` (and `pct_newgen_wide = 1/2`, `pct_a220 = 1/4`), the
missing component IS treated as 0 in the weighted sum, but `qa_notes` is
only `"fleet_too_small"`: the `missing_component` test runs on the columns
after `to_prop` has already replaced NaN by 0, so — last conjunct — no
input whatsoever can put `"missing_component"` into `qa_notes`. -/
theorem missing_component_note_dead (fleet nn nw a220 : Option ℚ) :
    air9_qa_notes (some 2) none (some (1/2)) (some (1/4)) = "fleet_too_small" ∧
    modernity_index none (some (1/2)) (some (1/4)) =
      clip01 (0.4 * 0 + 0.4 * (1/2) + 0.2 * (1/4)) ∧
    substrB "missing_component" (air9_qa_notes fleet nn nw a220) = false := by
  refine ⟨?_, ?_, ?_⟩
  · rw [air9_qa_notes]
    simp only [to_prop_isNone_false, Bool.or_self, Bool.false_or,
      if_neg (by simp : ¬ (false = true))]
    rw [if_pos (by norm_num [MIN_FLEET] : ((some (2:ℚ)).getD 0) < ((MIN_FLEET:ℕ) : ℚ))]
    decide
  · rw [modernity_index]
    rw [to_prop_of_mem_unit (by norm_num) (by norm_num),
        to_prop_of_mem_unit (by norm_num) (by norm_num)]
    norm_num [to_prop, clip01]
  · rw [air9_qa_notes]
    simp only [to_prop_isNone_false, Bool.or_self, Bool.false_or]
    rw [if_neg (by simp : ¬ (false = true))]
    split
    · decide
    · decide

/-- C4 counterexample: the claim requires the `is_max` family tag to be true
for `"737-8-200"`, but `PAT["max"]` in build_features.py
(`737[- ]?max|7m7|7m8|7m9|7mj|max ?(7|8|9|10)`) does not match it. -/
theorem max_tag_misses_737_8_200 : tag_family_is_max "737-8-200" = false := by
  decide

/-- C4 amended: the classifier's `is_max` tag is true for the marketing code
`"737 MAX 8"` and the abbreviation `"7M8"`, but false for the ICAO-style
`"737-8-200"` (that spelling is only covered by the legacy `new_gen`
pattern list of air1_generate_features.py, not by `PAT["max"]`). -/
theorem max_tag_of_codes :
    tag_family_is_max "737 MAX 8" = true ∧
    tag_family_is_max "7M8" = true ∧
    tag_family_is_max "737-8-200" = false := by
  refine ⟨by decide, by decide, by decide⟩

/-- C5: on raw rows `[("AIR FRANCE","A320neo"), ("AIR FRANCE","A320neo"),
("AIR FRANCE","A321")]` the aggregation yields `fleet_size = 3` (no
deduplication: every raw row counts), `n_models = 2` (distinct models),
`n_neo = 1` (the duplicated `(airline, model)` pair is deduplicated before
family counting) and `pct_neo = 1/3`. -/
theorem aggregation_dedup_asymmetry :
    fleet_size_air1 exRawAF "AIR FRANCE" = 3 ∧
    n_models_of exRawAF "AIR FRANCE" = 2 ∧
    n_neo_of exRawAF "AIR FRANCE" = 1 ∧
    pct_neo_of exRawAF "AIR FRANCE" = 1/3 := by
  have h1 : n_neo_of exRawAF "AIR FRANCE" = 1 := by decide
  have h2 : fleet_size_air1 exRawAF "AIR FRANCE" = 3 := by decide
  refine ⟨h2, by decide, h1, ?_⟩
  rw [pct_neo_of, h1, h2]
  norm_num [ratioBF, clip01]

/-- C6: the country-resolution chain tries the direct join, then the manual
override table, then the name-token heuristic, each stage only on rows still
unresolved (witnessed on `exRaw14`/`exMap14`: the direct join beats the
manual entry for ROYAL AIR MAROC, the manual entry beats the heuristic for
TAR MEXICO, the heuristic fires for FRANCE JET); an airline unresolved after
all three stages gets no region (no default), lands in the missing side
output and is excluded from the aggregation rows. -/
theorem resolution_chain_and_exclusion (raw : List RawCountryRow) (m : List M14Row)
    (scores : List ScoreRow) (s : ScoreRow)
    (hs : s ∈ scores) (hnone : resolveCountry raw m s.airline = none) :
    regionOf raw m s.airline = none ∧
    (s.airline, (none : Option String)) ∈ missingAirlines raw m scores ∧
    s ∉ aggRows raw m scores ∧
    stage1 exRaw14 "ROYAL AIR MAROC" = some "France" ∧
    get_manual_country "ROYAL AIR MAROC" = some "Maroc" ∧
    resolveCountry exRaw14 exMap14 "ROYAL AIR MAROC" = some "France" ∧
    stage1 exRaw14 "TAR MEXICO" = none ∧
    get_manual_country "TAR MEXICO" = some "Mexique" ∧
    guess_country_from_name "TAR MEXICO" (build_country_token_table exMap14) = some "Mexico" ∧
    resolveCountry exRaw14 exMap14 "TAR MEXICO" = some "Mexique" ∧
    stage1 exRaw14 "FRANCE JET" = none ∧
    get_manual_country "FRANCE JET" = none ∧
    resolveCountry exRaw14 exMap14 "FRANCE JET" = some "France" := by
  have hreg : regionOf raw m s.airline = none := by rw [regionOf, hnone]; rfl
  refine ⟨hreg, ?_, ?_, by decide, by decide, by decide, by decide, by decide, by decide,
    by decide, by decide, by decide, by decide⟩
  · rw [missingAirlines, mem_dedupF]
    exact List.mem_map.mpr ⟨s, List.mem_filter.mpr ⟨hs, by simp [hreg]⟩, by rw [hnone]⟩
  · intro hmem
    have h2 := (List.mem_filter.mp hmem).2
    simp [hreg] at h2

/-- Witness for C6: on the example data, ZZZ JET is unresolved by all three
stages, gets no region, is in the missing side output and is excluded from
the aggregation rows. -/
theorem resolution_chain_and_exclusion_witness :
    regionOf exRaw14 exMap14 "ZZZ JET" = none ∧
    ("ZZZ JET", (none : Option String)) ∈ missingAirlines exRaw14 exMap14 exScores14 ∧
    (⟨"ZZZ JET", some 0.2⟩ : ScoreRow) ∉ aggRows exRaw14 exMap14 exScores14 ∧
    stage1 exRaw14 "ROYAL AIR MAROC" = some "France" ∧
    get_manual_country "ROYAL AIR MAROC" = some "Maroc" ∧
    resolveCountry exRaw14 exMap14 "ROYAL AIR MAROC" = some "France" ∧
    stage1 exRaw14 "TAR MEXICO" = none ∧
    get_manual_country "TAR MEXICO" = some "Mexique" ∧
    guess_country_from_name "TAR MEXICO" (build_country_token_table exMap14) = some "Mexico" ∧
    resolveCountry exRaw14 exMap14 "TAR MEXICO" = some "Mexique" ∧
    stage1 exRaw14 "FRANCE JET" = none ∧
    get_manual_country "FRANCE JET" = none ∧
    resolveCountry exRaw14 exMap14 "FRANCE JET" = some "France" :=
  resolution_chain_and_exclusion exRaw14 exMap14 exScores14 ⟨"ZZZ JET", some 0.2⟩
    (by unfold exScores14; exact .tail _ (.tail _ (.tail _ (.head _)))) (by decide)

/-- C7 counterexample: rebuilding the mapping from a raw dataset whose only
country is France deletes the existing curated row for Atlantis — the merge
is not free of deletions. -/
theorem mapping_rebuild_deletes_unobserved :
    rebuildMapping [some "France"] (some exOldMap) = [⟨"France", "FR", "Europe"⟩] ∧
    (⟨"Atlantis", "XX", "Europe"⟩ : MapEntry) ∉ rebuildMapping [some "France"] (some exOldMap) := by
  refine ⟨by decide, by decide⟩

/-- C7 amended: the rebuilt mapping has exactly one row per country observed
in the current raw data (sorted, distinct) — newly observed countries are
appended (with auto-filled code/region) and rows for countries no longer
observed are DROPPED; an observed country's existing row keeps its non-empty
`country_code` and `region` values unchanged (blank fields are auto-filled). -/
theorem mapping_rebuild_upsert (m : List MapEntry) (cr : List (Option String))
    (c : String) (e : MapEntry)
    (hc : c ∈ countriesList cr)
    (he : m.find? (fun x => trimStr x.country = c) = some e)
    (hcode : trimStr e.country_code ≠ "")
    (hreg : trimStr e.region ≠ "") :
    (rebuildEntry (some m) c).country_code = e.country_code ∧
    (rebuildEntry (some m) c).region = e.region ∧
    rebuildEntry (some m) c ∈ rebuildMapping cr (some m) ∧
    (rebuildMapping cr (some m)).map (fun x => x.country) = countriesList cr := by
  have hb : rebuildEntry (some m) c = ⟨c, e.country_code, e.region⟩ := by
    rw [rebuildEntry, he]
    simp [hcode, hreg]
  refine ⟨by rw [hb], by rw [hb], List.mem_map_of_mem _ hc, ?_⟩
  rw [rebuildMapping, List.map_map]
  have hid : ((fun x : MapEntry => x.country) ∘ rebuildEntry (some m)) = id := by
    funext x
    rfl
  rw [hid, List.map_id]

/-- Witness for C7 amended: the curated Atlantis row survives (values intact)
when Atlantis is still observed in the raw data. -/
theorem mapping_rebuild_upsert_witness :
    (rebuildEntry (some exOldMap) "Atlantis").country_code = "XX" ∧
    (rebuildEntry (some exOldMap) "Atlantis").region = "Europe" ∧
    rebuildEntry (some exOldMap) "Atlantis" ∈
      rebuildMapping [some "Atlantis", some "France"] (some exOldMap) ∧
    (rebuildMapping [some "Atlantis", some "France"] (some exOldMap)).map
      (fun x => x.country) = countriesList [some "Atlantis", some "France"] :=
  mapping_rebuild_upsert exOldMap [some "Atlantis", some "France"] "Atlantis"
    ⟨"Atlantis", "XX", "Europe"⟩ (by decide) (by decide) (by decide) (by decide)

/-- C10: whatever the loaded mapping file contains, the four `EXTRA_REGION`
rows are appended before the region join, so an airline resolving to
Philippines, Maroc, Mongolie or États-Unis is assigned the corresponding
region even when the editable mapping file has no entry for that country. -/
theorem extra_region_rows_effective (m : List M14Row)
    (h1 : ∀ r ∈ m, normalize_str r.country ≠ "PHILIPPINES")
    (h2 : ∀ r ∈ m, normalize_str r.country ≠ "MAROC")
    (h3 : ∀ r ∈ m, normalize_str r.country ≠ "MONGOLIE")
    (h4 : ∀ r ∈ m, normalize_str r.country ≠ "ETATS UNIS") :
    regionLookup m "Philippines" = some "Asia" ∧
    regionLookup m "Maroc" = some "Africa" ∧
    regionLookup m "Mongolie" = some "Asia" ∧
    regionLookup m "États-Unis" = some "North America" := by
  refine ⟨?_, ?_, ?_, ?_⟩
  · have hm : m.find? (fun r => normalize_str r.country = normalize_str "Philippines") = none := by
      rw [List.find?_eq_none]
      intro r hr
      simpa [show normalize_str "Philippines" = "PHILIPPINES" from by decide] using h1 r hr
    rw [regionLookup, mappingFull, List.find?_append, hm]
    decide
  · have hm : m.find? (fun r => normalize_str r.country = normalize_str "Maroc") = none := by
      rw [List.find?_eq_none]
      intro r hr
      simpa [show normalize_str "Maroc" = "MAROC" from by decide] using h2 r hr
    rw [regionLookup, mappingFull, List.find?_append, hm]
    decide
  · have hm : m.find? (fun r => normalize_str r.country = normalize_str "Mongolie") = none := by
      rw [List.find?_eq_none]
      intro r hr
      simpa [show normalize_str "Mongolie" = "MONGOLIE" from by decide] using h3 r hr
    rw [regionLookup, mappingFull, List.find?_append, hm]
    decide
  · have hm : m.find? (fun r => normalize_str r.country = normalize_str "États-Unis") = none := by
      rw [List.find?_eq_none]
      intro r hr
      simpa [show normalize_str "États-Unis" = "ETATS UNIS" from by decide] using h4 r hr
    rw [regionLookup, mappingFull, List.find?_append, hm]
    decide

/-- Witness for C10 at the empty mapping file. -/
theorem extra_region_rows_effective_witness :
    regionLookup [] "Philippines" = some "Asia" ∧
    regionLookup [] "Maroc" = some "Africa" ∧
    regionLookup [] "Mongolie" = some "Asia" ∧
    regionLookup [] "États-Unis" = some "North America" :=
  extra_region_rows_effective [] (by simp) (by simp) (by simp) (by simp)
